import Mathlib

/-!
Shallow embedding of the PEX swarm node of the Network-Security-Project
repository (pex.py, swarm.py) and proofs about the embedded operations.

Bytes are modelled as natural numbers and byte strings as lists of
naturals.  A raised Python exception is modelled by the type PyExn below,
and a fallible Python call is a PyResult value.  Timestamps produced by
time.clock are modelled by an explicit rational-valued now parameter.
The digest function _addrToPeerId (a SHA-256 hex digest of "ip:port") is
kept abstract: the operations that use it take it as a parameter.
-/

/-- Model of the Python exceptions the source can raise: AttributeError,
NameError (with the unbound name), TypeError, ValueError, struct.error and
a plain Exception with its message. -/
inductive PyExn : Type
  | attributeError (msg : String)
  | nameError (missing : String)
  | typeError (msg : String)
  | valueError (msg : String)
  | structError (msg : String)
  | exception (msg : String)
deriving DecidableEq

/-- Result of a Python call: a returned value, or a raised exception. -/
inductive PyResult (α : Type) : Type
  | ok (val : α)
  | exn (e : PyExn)
deriving DecidableEq

/-- pex.py line 20: the maximum length of a sending/receiving buffer. -/
def PACKET_BUFSIZE : Nat := 1024

/-- pex.py line 23: the magic bytes b"seth" at the beginning of every
packet, as byte values. -/
def MAGIC_BYTES : List Nat := [115, 101, 116, 104]

/-- pex.py line 26: the size of the packet header in bytes. -/
def PACKET_HEADER_SIZE : Nat := MAGIC_BYTES.length + 3

/-- pex.py line 29. -/
def PACKET_TYPE_MESSAGE : Nat := 0

/-- pex.py line 30. -/
def PACKET_TYPE_ACK : Nat := 1

/-- pex.py line 31. -/
def PACKET_TYPE_PING : Nat := 2

/-- pex.py line 32. -/
def PACKET_TYPE_PEX : Nat := 3

/-- pex.py line 33. -/
def MAX_PACKET_TYPE : Nat := 3

/-- Embeds _packPacket (pex.py lines 82-93): a payload longer than
PACKET_BUFSIZE - PACKET_HEADER_SIZE = 1017 bytes raises the exception
with message "Packet payload too long!"; then struct.pack with format !BH
(one unsigned byte, one big-endian unsigned 16-bit word) raises
struct.error when the type exceeds 255 or the id exceeds 65535; otherwise
the packet is the magic bytes, the type byte, the two id bytes in
big-endian order, and the payload. -/
def packPacket (packetType packetId : Nat) (payload : List Nat) : PyResult (List Nat) :=
  if PACKET_BUFSIZE - PACKET_HEADER_SIZE < payload.length then
    .exn (.exception "Packet payload too long!")
  else if 255 < packetType ∨ 65535 < packetId then
    .exn (.structError "argument out of range")
  else
    .ok (MAGIC_BYTES ++ [packetType, packetId / 256, packetId % 256] ++ payload)

/-- Embeds _unpackPacketHeader (pex.py lines 65-80); none models the Python
return value False for an invalid packet.  When the length check passes,
the slice packet[4:7] has exactly three bytes, so struct.unpack with
format !BH always succeeds and yields byte 4 and the big-endian word
formed by bytes 5 and 6; a type byte above MAX_PACKET_TYPE is invalid,
otherwise the triple of type, id and the bytes after the header is
returned. -/
def unpackPacketHeader (packet : List Nat) : Option (Nat × Nat × List Nat) :=
  if packet.length < PACKET_HEADER_SIZE ∨ packet.take 4 ≠ MAGIC_BYTES then
    none
  else
    let packType := packet.getD 4 0
    let packId := packet.getD 5 0 * 256 + packet.getD 6 0
    if MAX_PACKET_TYPE < packType then none
    else some (packType, packId, packet.drop PACKET_HEADER_SIZE)

/-- Embeds _sanitizePeerId (pex.py lines 48-63).  A peer id whose length is
not 64 returns False at line 54.  Every id of length 64 then executes line
57, which is peerId = str(peerId).tolower(), and the Python str type has
no attribute named tolower (the method is named lower), so line 57 raises
an AttributeError for every length-64 input; the per-character loop of
lines 60-63, and the return True at line 63, are unreachable. -/
def sanitizePeerId (peerId : String) : PyResult Bool :=
  if peerId.length ≠ 64 then .ok false
  else .exn (.attributeError "str object has no attribute tolower")

/-- pex.py line 36: how long the sender should wait before retransmitting
each time, in seconds. -/
def TIMEOUT_LENGTHS : List ℚ := [1/100, 1/10, 1, 10]

/-- Modelled from the spec: the PendingSend record of spec section 4.4.
The source declares the retransmission constants (pex.py line 36) and the
unacked-message list (line 128) but implements no Retransmission Manager:
the resend loop of poll (lines 193-195) is a pass stub and nothing ever
populates the list. -/
structure PendingSend : Type where
  peerId : String
  packetId : Nat
  payload : List Nat
  retryIndex : Nat
  nextDeadline : ℚ
deriving DecidableEq

/-- Does the pending send s carry the ACK-matching pair (p, k)? -/
def sendMatches (s : PendingSend) (p : String) (k : Nat) : Bool :=
  s.peerId == p && s.packetId == k

/-- Modelled from the spec: track of section 4.4, absent from the source.
Creates a PendingSend with retryIndex 0 and deadline now plus the first
schedule entry. -/
def track (now : ℚ) (m : List PendingSend) (p : String) (k : Nat)
    (payload : List Nat) : List PendingSend :=
  m ++ [⟨p, k, payload, 0, now + TIMEOUT_LENGTHS.getD 0 0⟩]

/-- Modelled from the spec: acknowledge of section 4.4, absent from the
source.  Removes the matching pending sends; an unmatched ACK leaves the
manager unchanged and raises nothing. -/
def acknowledge (m : List PendingSend) (p : String) (k : Nat) : List PendingSend :=
  m.filter (fun s => !(sendMatches s p k))

/-- Modelled from the spec: dueForRetry of section 4.4, absent from the
source.  Returns every tracked send whose deadline has passed. -/
def dueForRetry (now : ℚ) (m : List PendingSend) : List PendingSend :=
  m.filter (fun s => decide (s.nextDeadline ≤ now))

/-- Modelled from the spec: advance of section 4.4, absent from the source,
applied when the send is resent at time now.  The retry index is
incremented; past the last schedule tier the send is removed with a
DeliveryFailed report, modelled by none; otherwise the next deadline is
now plus the schedule entry at the new index. -/
def advance (now : ℚ) (s : PendingSend) : Option PendingSend :=
  let ri := s.retryIndex + 1
  if TIMEOUT_LENGTHS.length ≤ ri then none
  else some { s with retryIndex := ri, nextDeadline := now + TIMEOUT_LENGTHS.getD ri 0 }

/-- Modelled from the spec: the retransmission history of one pending send
that is never acknowledged, under the retransmission tick of section 4.5.
Each step resends (deadline, packetId, payload) at the deadline of the
send and advances it; the second component counts DeliveryFailed reports.
fuel bounds the number of retry steps considered. -/
def runRetries : Nat → PendingSend → List (ℚ × Nat × List Nat) × Nat
  | 0, _ => ([], 0)
  | fuel + 1, s =>
    match advance s.nextDeadline s with
    | none => ([(s.nextDeadline, s.packetId, s.payload)], 1)
    | some s2 =>
      let rest := runRetries fuel s2
      ((s.nextDeadline, s.packetId, s.payload) :: rest.1, rest.2)

/-- Embeds _PeerRecord (pex.py lines 95-102); lastActivityTime is the
time.clock value at creation. -/
structure PeerRecord : Type where
  identifier : String
  address : String × Nat
  nextPacketId : Nat
  lastActivityTime : ℚ
deriving DecidableEq

/-- Embeds _PeerRecord.generateNextPacketId (pex.py lines 107-110): returns
the current id together with the record whose counter advanced modulo
65536. -/
def generateNextPacketId (r : PeerRecord) : Nat × PeerRecord :=
  (r.nextPacketId, { r with nextPacketId := (r.nextPacketId + 1) % 65536 })

/-- Lookup in the peers dictionary, modelled as an association list with
unique keys. -/
def dictLookup (m : List (String × PeerRecord)) (k : String) : Option PeerRecord :=
  (m.find? (fun kv => kv.1 == k)).map (fun kv => kv.2)

/-- Insertion into the peers dictionary: replaces the value at an existing
key, otherwise appends the new binding. -/
def dictInsert (m : List (String × PeerRecord)) (k : String) (v : PeerRecord) :
    List (String × PeerRecord) :=
  if (m.find? (fun kv => kv.1 == k)).isSome then
    m.map (fun kv => if kv.1 == k then (k, v) else kv)
  else m ++ [(k, v)]

/-- Embeds the mutable state of PexNode (pex.py lines 122-129) plus a log of
the sock.sendto calls performed: each entry is the datagram bytes and the
destination address. -/
structure PexNode : Type where
  broadcast : Bool
  lastBroadcastTime : ℚ
  peers : List (String × PeerRecord)
  unackedMessages : List PendingSend
  port : Nat
  sent : List (List Nat × (String × Nat))
deriving DecidableEq

/-- Embeds PexNode._handlePacket (pex.py lines 143-168), parameterised by
the digest function _addrToPeerId (a SHA-256 hex digest, kept abstract).
Line 148 reads the name result, which is a local variable of poll and is
unbound inside this method, so a MESSAGE packet raises a NameError.  Line
157 calls _packPacket with two arguments instead of the required three, so
a PING packet raises a TypeError before any ACK is sent.  Lines 167-168
then register an unknown sender, but the assignment at line 168 writes to
the unbound name _peers instead of self._peers, so first contact raises a
NameError; only a packet of type ACK or PEX from an already known sender
returns normally, and it changes nothing. -/
def handlePacket (addrToPeerId : String → Nat → String) (node : PexNode)
    (peerAddr : String × Nat) (packetType packetId : Nat) (payload : List Nat) :
    PyResult PexNode :=
  let peerId := addrToPeerId peerAddr.1 peerAddr.2
  let register : PyResult PexNode :=
    if (dictLookup node.peers peerId).isSome then .ok node
    else .exn (.nameError "_peers")
  if packetType = PACKET_TYPE_MESSAGE then .exn (.nameError "result")
  else if packetType = PACKET_TYPE_ACK then register
  else if packetType = PACKET_TYPE_PING then
    .exn (.typeError "_packPacket missing 1 required positional argument payload")
  else if packetType = PACKET_TYPE_PEX then register
  else .exn (.valueError "Invalid packet type detected")

/-- Embeds the per-datagram dispatch step of PexNode.poll (pex.py lines
186-189): an invalid packet is skipped silently; a valid packet is passed
to the bare module-level name _handlePacket, which pex.py never defines at
module level (the handler is the method self._handlePacket), so the
dispatch of every valid packet raises a NameError. -/
def pollDispatch (node : PexNode) (packet : List Nat)
    (peerAddr : String × Nat) : PyResult PexNode :=
  match unpackPacketHeader packet with
  | none => .ok node
  | some _ => .exn (.nameError "_handlePacket")

/-- Embeds PexNode.addPeer (pex.py lines 197-212), parameterised by the
digest function _addrToPeerId and the current time.  A known address is
left alone; otherwise a fresh record is created, a PING packet with the id
drawn from the fresh counter is sent to the address of the record, and the
advanced record is stored. -/
def addPeer (addrToPeerId : String → Nat → String) (now : ℚ) (node : PexNode)
    (ip : String) (port : Nat) : PyResult PexNode :=
  let peerId := addrToPeerId ip port
  if (dictLookup node.peers peerId).isSome then .ok node
  else
    let peerRecord : PeerRecord := ⟨peerId, (ip, port), 0, now⟩
    let pr := generateNextPacketId peerRecord
    match packPacket PACKET_TYPE_PING pr.1 [] with
    | .exn e => .exn e
    | .ok pingPkt => .ok { node with
        peers := dictInsert node.peers peerId pr.2,
        sent := node.sent ++ [(pingPkt, peerRecord.address)] }

/-- Embeds PexNode.sendMessage (pex.py lines 214-224).  Line 217 rebinds the
local peerId to the return value of _sanitizePeerId, which is a bool when
it does not raise; a bool is never equal to any of the String keys of the
peers dictionary, so the membership test at line 218 is always false and
the body never reaches the sending code of lines 219-222.  The else branch
at line 224 raises through the unqualified name InaccessiblePeerException,
which is unbound in pex.py (the module only performs import swarm and
never references swarm.InaccessiblePeerException), so a NameError is
raised there. -/
def sendMessage (node : PexNode) (peerId : String) (message : List Nat) :
    PyResult PexNode :=
  match sanitizePeerId peerId with
  | .exn e => .exn e
  | .ok _ => .exn (.nameError "InaccessiblePeerException")

/-- A well-formed 64-character peer id: 64 zero characters. -/
def zeros64 : String := String.mk (List.replicate 64 '0')

/-- The uppercase id of spec section 8: ABCDEF followed by 58 zeros. -/
def upperId : String := "ABCDEF" ++ String.mk (List.replicate 58 '0')

/-- Concrete stand-in for the abstract digest parameter in closed
instances; no claim depends on the exact SHA-256 digest values. -/
def addrDigest0 (ip : String) (port : Nat) : String := ip ++ ":" ++ toString port

/-- A freshly constructed node: no peers, nothing sent. -/
def emptyNode : PexNode := ⟨true, 0, [], [], 4141, []⟩

/-- A node already holding a record for the address 10.0.0.2 port 4141. -/
def node1 : PexNode :=
  ⟨true, 0, [(addrDigest0 "10.0.0.2" 4141,
    ⟨addrDigest0 "10.0.0.2" 4141, ("10.0.0.2", 4141), 1, 0⟩)], [], 4141, []⟩

/-- Decoding a packet that consists of the magic bytes, a valid type byte,
two id bytes and a payload recovers the type, the big-endian id word and
the payload. -/
theorem unpackPacketHeader_magic (t a b : Nat) (payload : List Nat) (ht : t ≤ 3) :
    unpackPacketHeader (MAGIC_BYTES ++ [t, a, b] ++ payload) =
      some (t, a * 256 + b, payload) := by
  show unpackPacketHeader (115 :: 101 :: 116 :: 104 :: t :: a :: b :: payload) = _
  rw [unpackPacketHeader]
  simp [PACKET_HEADER_SIZE, MAGIC_BYTES, MAX_PACKET_TYPE, List.getD, Nat.not_lt.2 ht]

/-- C1: the claim fails on the code.  sendMessage never validates, never
looks up the registry and never sends: _sanitizePeerId raises an
AttributeError for every 64-character identifier (the nonexistent str
method tolower), and for every other identifier the local peerId is
rebound to the bool False, the registry membership test fails, and the
raise at line 224 goes through the unbound name InaccessiblePeerException,
producing a NameError.  No MalformedPeerId or InaccessiblePeer error is
ever produced and no MESSAGE packet is ever sent or tracked. -/
theorem C1_sendMessage_always_raises (node : PexNode) (peerId : String)
    (message : List Nat) :
    sendMessage node peerId message =
      .exn (if peerId.length = 64 then
          PyExn.attributeError "str object has no attribute tolower"
        else PyExn.nameError "InaccessiblePeerException") := by
  by_cases h : peerId.length = 64 <;> simp [sendMessage, sanitizePeerId, h]

/-- C2: the claim fails on the code.  The wrong-length half holds, so
sanitizePeerId of the string abc is False; but on every 64-character
candidate, uppercase or not, _sanitizePeerId raises an AttributeError at
line 57 (str has no method tolower) instead of returning a bool, so the
claimed iff characterisation is false. -/
theorem C2_sanitizePeerId_eval :
    sanitizePeerId "abc" = .ok false ∧
    sanitizePeerId upperId = .exn (.attributeError "str object has no attribute tolower") ∧
    sanitizePeerId zeros64 = .exn (.attributeError "str object has no attribute tolower") := by
  refine ⟨rfl, ?_, ?_⟩ <;> decide

/-- C3: the claim fails on the code.  For every PING packet, the handler
raises a TypeError at line 157 because _packPacket is called with two
arguments instead of the required three, so no ACK packet is ever built or
sent; moreover the dispatch in poll itself (line 189) raises a NameError
through the bare module-level name _handlePacket for every valid inbound
packet, so the handler is not even reached from poll. -/
theorem C3_ping_never_acked (addrToPeerId : String → Nat → String)
    (node : PexNode) (peerAddr : String × Nat) (k : Nat) (payload : List Nat) :
    handlePacket addrToPeerId node peerAddr PACKET_TYPE_PING k payload =
      .exn (.typeError "_packPacket missing 1 required positional argument payload") ∧
    pollDispatch node (MAGIC_BYTES ++ [PACKET_TYPE_PING, k / 256, k % 256] ++ payload)
        peerAddr = .exn (.nameError "_handlePacket") := by
  constructor
  · simp [handlePacket, PACKET_TYPE_PING, PACKET_TYPE_MESSAGE, PACKET_TYPE_ACK]
  · unfold pollDispatch
    rw [unpackPacketHeader_magic PACKET_TYPE_PING (k / 256) (k % 256) payload (by decide)]

/-- C4: the claim fails on the code.  A valid packet from an address whose
derived identifier is not yet registered never results in a peer record:
the insertion at line 168 assigns to the unbound name _peers, so packet
types ACK and PEX raise a NameError there, while MESSAGE and PING raise
even earlier inside their dispatch branches; nothing is ever added to the
registry. -/
theorem C4_first_contact_not_registered (addrToPeerId : String → Nat → String)
    (node : PexNode) (peerAddr : String × Nat) (packetType packetId : Nat)
    (payload : List Nat) (hpt : packetType ≤ MAX_PACKET_TYPE)
    (habs : dictLookup node.peers (addrToPeerId peerAddr.1 peerAddr.2) = none) :
    handlePacket addrToPeerId node peerAddr packetType packetId payload =
      .exn (if packetType = 0 then .nameError "result"
        else if packetType = 2 then
          .typeError "_packPacket missing 1 required positional argument payload"
        else .nameError "_peers") := by
  have h : (dictLookup node.peers (addrToPeerId peerAddr.1 peerAddr.2)).isSome = false := by
    rw [habs]; rfl
  simp only [MAX_PACKET_TYPE] at hpt
  interval_cases packetType <;>
    simp [handlePacket, PACKET_TYPE_MESSAGE, PACKET_TYPE_ACK, PACKET_TYPE_PING,
      PACKET_TYPE_PEX, h]

/-- Closed instance of C4_first_contact_not_registered: a valid ACK packet
from an unknown address raises a NameError and registers nothing. -/
theorem C4_first_contact_witness :
    handlePacket addrDigest0 emptyNode ("10.0.0.2", 4141) 1 0 [] =
      .exn (.nameError "_peers") :=
  C4_first_contact_not_registered addrDigest0 emptyNode ("10.0.0.2", 4141) 1 0 []
    (by decide) (by rfl)

/-- C5: encode/decode round-trip.  For every type at most 3, packet id at
most 65535 and payload such that header plus payload fits in 1024 bytes,
packing succeeds and unpacking the packed bytes returns exactly the type,
id and payload. -/
theorem C5_codec_roundtrip (t i : Nat) (payload : List Nat) (ht : t ≤ 3)
    (hi : i ≤ 65535) (hlen : 7 + payload.length ≤ 1024) :
    ∃ pkt, packPacket t i payload = .ok pkt ∧
      unpackPacketHeader pkt = some (t, i, payload) := by
  refine ⟨MAGIC_BYTES ++ [t, i / 256, i % 256] ++ payload, ?_, ?_⟩
  · rw [packPacket,
      if_neg (by simp [PACKET_BUFSIZE, PACKET_HEADER_SIZE, MAGIC_BYTES]; omega),
      if_neg (by push_neg; omega)]
  · rw [unpackPacketHeader_magic t (i / 256) (i % 256) payload ht]
    have h : i / 256 * 256 + i % 256 = i := by omega
    rw [h]

/-- Closed instance of C5_codec_roundtrip at type 3, id 65535, payload of
three bytes. -/
theorem C5_codec_roundtrip_witness :
    ∃ pkt, packPacket 3 65535 [7, 8, 9] = .ok pkt ∧
      unpackPacketHeader pkt = some (3, 65535, [7, 8, 9]) :=
  C5_codec_roundtrip 3 65535 [7, 8, 9] (by decide) (by decide) (by decide)

/-- C6: ACK clears retransmission, over the spec-modelled Retransmission
Manager.  After tracking a send to peer p with packet id k, acknowledging
(p, k) removes every matching pending send, so dueForRetry never returns a
matching send at any later time; and an ACK matching no tracked send
leaves the manager unchanged (and the model raises nothing, being total). -/
theorem C6_ack_clears (m : List PendingSend) (now t2 : ℚ) (p p2 : String)
    (k k2 : Nat) (payload : List Nat) :
    (dueForRetry t2 (acknowledge (track now m p k payload) p k)).filter
        (fun s => sendMatches s p k) = [] ∧
    ((∀ s ∈ m, sendMatches s p2 k2 = false) → acknowledge m p2 k2 = m) := by
  constructor
  · apply List.filter_eq_nil_iff.2
    intro s hs
    rw [dueForRetry] at hs
    have hs2 := (List.mem_filter.1 hs).1
    rw [acknowledge] at hs2
    have hmatch := (List.mem_filter.1 hs2).2
    simp only [Bool.not_eq_true'] at hmatch
    simp [hmatch]
  · intro hall
    rw [acknowledge]
    apply List.filter_eq_self.2
    intro s hs
    simp [hall s hs]

/-- Closed instance of C6_ack_clears. -/
theorem C6_ack_clears_witness :
    (dueForRetry 1000 (acknowledge (track 0 [⟨"bb", 1, [], 0, 0⟩] "aa" 7 [104, 105]) "aa" 7)).filter
        (fun s => sendMatches s "aa" 7) = [] ∧
    acknowledge [⟨"bb", 1, [], 0, 0⟩] "aa" 7 = [⟨"bb", 1, [], 0, 0⟩] :=
  ⟨(C6_ack_clears [⟨"bb", 1, [], 0, 0⟩] 0 1000 "aa" "aa" 7 7 [104, 105]).1,
   (C6_ack_clears [⟨"bb", 1, [], 0, 0⟩] 0 1000 "aa" "aa" 7 7 [104, 105]).2 (by decide)⟩

/-- C7: backoff exhaustion, over the spec-modelled Retransmission Manager.
A send tracked at time t0 and never acknowledged is resent exactly four
times, at t0 + 0.01, then 0.1, 1 and 10 seconds after the preceding
resend, each resend carrying the same packet id and payload; exactly one
DeliveryFailed report is produced, and the run is identical for every
fuel bound of at least four polls, so no further resend ever occurs. -/
theorem C7_backoff_exhaustion (p : String) (k : Nat) (payload : List Nat)
    (t0 : ℚ) (fuel : Nat) (hf : 4 ≤ fuel) :
    track t0 [] p k payload = [⟨p, k, payload, 0, t0 + 1/100⟩] ∧
    runRetries fuel ⟨p, k, payload, 0, t0 + 1/100⟩ =
      ([(t0 + 1/100, k, payload),
        (t0 + 1/100 + 1/10, k, payload),
        (t0 + 1/100 + 1/10 + 1, k, payload),
        (t0 + 1/100 + 1/10 + 1 + 10, k, payload)], 1) := by
  obtain ⟨n, rfl⟩ : ∃ n, fuel = n + 4 := ⟨fuel - 4, by omega⟩
  exact ⟨rfl, rfl⟩

/-- Closed instance of C7_backoff_exhaustion at fuel 4. -/
theorem C7_backoff_exhaustion_witness :
    track 0 [] "aa" 7 [1] = [⟨"aa", 7, [1], 0, (0:ℚ) + 1/100⟩] ∧
    runRetries 4 ⟨"aa", 7, [1], 0, (0:ℚ) + 1/100⟩ =
      ([((0:ℚ) + 1/100, 7, [1]), ((0:ℚ) + 1/100 + 1/10, 7, [1]),
        ((0:ℚ) + 1/100 + 1/10 + 1, 7, [1]),
        ((0:ℚ) + 1/100 + 1/10 + 1 + 10, 7, [1])], 1) :=
  C7_backoff_exhaustion "aa" 7 [1] 0 4 (by decide)

/-- C8: packing fails with the payload-too-long exception exactly when the
7 header bytes plus the payload exceed 1024 bytes, and succeeds with the
framed packet otherwise; _packPacket performs no network operation either
way. -/
theorem C8_oversize_boundary (t i : Nat) (payload : List Nat) (ht : t ≤ 255)
    (hi : i ≤ 65535) :
    (1024 < 7 + payload.length →
      packPacket t i payload = .exn (.exception "Packet payload too long!")) ∧
    (7 + payload.length ≤ 1024 →
      packPacket t i payload = .ok (MAGIC_BYTES ++ [t, i / 256, i % 256] ++ payload)) := by
  constructor
  · intro h
    rw [packPacket,
      if_pos (by simp [PACKET_BUFSIZE, PACKET_HEADER_SIZE, MAGIC_BYTES]; omega)]
  · intro h
    rw [packPacket,
      if_neg (by simp [PACKET_BUFSIZE, PACKET_HEADER_SIZE, MAGIC_BYTES]; omega),
      if_neg (by push_neg; omega)]

/-- Closed instance of C8_oversize_boundary: a 1018-byte payload is
rejected, a 1017-byte payload is framed. -/
theorem C8_oversize_boundary_witness :
    packPacket 0 0 (List.replicate 1018 0) = .exn (.exception "Packet payload too long!") ∧
    packPacket 0 0 (List.replicate 1017 0) =
      .ok (MAGIC_BYTES ++ [0, 0 / 256, 0 % 256] ++ List.replicate 1017 0) :=
  ⟨(C8_oversize_boundary 0 0 (List.replicate 1018 0) (by decide) (by decide)).1
      (by norm_num),
   (C8_oversize_boundary 0 0 (List.replicate 1017 0) (by decide) (by decide)).2
      (by norm_num)⟩

/-- C10: decoder totality.  The embedded decoder is a total function, and
for every byte string it returns either none (the Python value False) or a
triple whose type is at most 3, whose id is at most 65535, and whose
payload is the input with its first 7 bytes removed; in the source the
only fallible step, struct.unpack on packet[4:7], runs only when the
length is at least 7, so the slice has exactly three bytes and the call
always succeeds. -/
theorem C10_unpack_total (b : List Nat) (hb : ∀ x ∈ b, x < 256) :
    unpackPacketHeader b = none ∨
    ∃ t i, unpackPacketHeader b = some (t, i, b.drop 7) ∧ t ≤ 3 ∧ i ≤ 65535 := by
  rw [unpackPacketHeader]
  split
  · exact Or.inl rfl
  next hcond =>
    rw [not_or] at hcond
    obtain ⟨hlen, -⟩ := hcond
    rw [Nat.not_lt] at hlen
    dsimp only
    split
    · exact Or.inl rfl
    next htype =>
      refine Or.inr ⟨b.getD 4 0, b.getD 5 0 * 256 + b.getD 6 0, rfl, ?_, ?_⟩
      · simp only [MAX_PACKET_TYPE, Nat.not_lt] at htype
        exact htype
      · have hlen7 : 7 ≤ b.length := hlen
        have h5 : b.getD 5 0 < 256 := by
          have hm : b.getD 5 0 ∈ b := by
            rw [List.getD_eq_getElem _ _ (by omega)]
            exact List.getElem_mem _
          exact hb _ hm
        have h6 : b.getD 6 0 < 256 := by
          have hm : b.getD 6 0 ∈ b := by
            rw [List.getD_eq_getElem _ _ (by omega)]
            exact List.getElem_mem _
          exact hb _ hm
        omega

/-- Closed instance of C10_unpack_total on a valid 8-byte datagram. -/
theorem C10_unpack_total_witness :
    unpackPacketHeader [115, 101, 116, 104, 1, 1, 44, 9] = none ∨
    ∃ t i, unpackPacketHeader [115, 101, 116, 104, 1, 1, 44, 9] =
        some (t, i, List.drop 7 [115, 101, 116, 104, 1, 1, 44, 9]) ∧
      t ≤ 3 ∧ i ≤ 65535 :=
  C10_unpack_total [115, 101, 116, 104, 1, 1, 44, 9] (by decide)

/-- C9: addPeer creates a record for an unknown address, sends a PING with
packet id 0 drawn from the fresh counter of the record (stored advanced to
1) to exactly that address, and stores the record; for a known address it
returns the node unchanged and sends nothing. -/
theorem C9_addPeer_spec (addrToPeerId : String → Nat → String) (now : ℚ)
    (node : PexNode) (ip : String) (port : Nat) :
    (dictLookup node.peers (addrToPeerId ip port) = none →
      addPeer addrToPeerId now node ip port = .ok { node with
        peers := dictInsert node.peers (addrToPeerId ip port)
          ⟨addrToPeerId ip port, (ip, port), 1, now⟩,
        sent := node.sent ++ [([115, 101, 116, 104, 2, 0, 0], (ip, port))] }) ∧
    ((dictLookup node.peers (addrToPeerId ip port)).isSome = true →
      addPeer addrToPeerId now node ip port = .ok node) := by
  constructor
  · intro habs
    have h : (dictLookup node.peers (addrToPeerId ip port)).isSome = false := by
      rw [habs]; rfl
    rw [addPeer, if_neg (by simp [h])]
    norm_num [generateNextPacketId, packPacket, PACKET_TYPE_PING, PACKET_BUFSIZE,
      PACKET_HEADER_SIZE, MAGIC_BYTES]
  · intro hsome
    rw [addPeer, if_pos hsome]

/-- Closed instance of C9_addPeer_spec: adding an unknown address inserts
the record and pings it; adding it again changes nothing. -/
theorem C9_addPeer_spec_witness :
    addPeer addrDigest0 0 emptyNode "10.0.0.2" 4141 = .ok { emptyNode with
      peers := dictInsert emptyNode.peers (addrDigest0 "10.0.0.2" 4141)
        ⟨addrDigest0 "10.0.0.2" 4141, ("10.0.0.2", 4141), 1, 0⟩,
      sent := emptyNode.sent ++ [([115, 101, 116, 104, 2, 0, 0], ("10.0.0.2", 4141))] } ∧
    addPeer addrDigest0 0 node1 "10.0.0.2" 4141 = .ok node1 :=
  ⟨(C9_addPeer_spec addrDigest0 0 emptyNode "10.0.0.2" 4141).1 rfl,
   (C9_addPeer_spec addrDigest0 0 node1 "10.0.0.2" 4141).2 (by decide)⟩
